import Mathlib

/-!
Verification model of the remote-browser-server core: a token-authenticated
WebSocket proxy that lazily keeps at most one Playwright browser server per
browser type, relays client connections to it, and reclaims idle sessions.

Shallow embedding of `src/server.ts`, `src/server/PlaywrightProxyServer.ts`
and the refactored entry point (`getBrowserServer` / `closeSession`).
Machine-level effects are made explicit:
  - `Date.now()` and `crypto.randomUUID()` become the parameters `now` and
    `freshId`;
  - `chromium/firefox/webkit.launchServer` becomes a `launch` capability
    returning `Except`, whose `error` case models the thrown launch failure;
  - the opaque `BrowserServer` handle is represented by its one observable
    used by the proxy, the `wsEndpoint()` address;
  - `browserServer.close()` becomes a `closeOutcome` capability whose
    `error` case models a thrown termination failure.
-/

/-- Channel (browser) type: the TS union `'chromium' | 'firefox' | 'webkit'`. -/
inductive BrowserType where
  | chromium
  | firefox
  | webkit
deriving DecidableEq

/-- One live backend session, TS `interface BrowserSession`:
`id` (crypto.randomUUID string), the browser server handle represented by its
`wsEndpoint()` address, and `lastUsed` (epoch milliseconds). -/
structure BrowserSession where
  id : String
  wsEndpoint : String
  lastUsed : Nat
deriving DecidableEq

/-- The session table `activeSessions`: a record with one optional
`BrowserSession` slot per browser type (src/server.ts lines 26-30). -/
structure ActiveSessions where
  chromium : Option BrowserSession
  firefox : Option BrowserSession
  webkit : Option BrowserSession
deriving DecidableEq

/-- Read the table slot for a browser type (TS `activeSessions[browserType]`). -/
def ActiveSessions.get (a : ActiveSessions) : BrowserType → Option BrowserSession
  | BrowserType.chromium => a.chromium
  | BrowserType.firefox => a.firefox
  | BrowserType.webkit => a.webkit

/-- Write the table slot for a browser type (TS assignment or `delete`). -/
def ActiveSessions.set (a : ActiveSessions) : BrowserType → Option BrowserSession → ActiveSessions
  | BrowserType.chromium, v => { a with chromium := v }
  | BrowserType.firefox, v => { a with firefox := v }
  | BrowserType.webkit, v => { a with webkit := v }

/-- Number of live sessions reported by the health endpoint
(`Object.keys(activeSessions).length` in src/server.ts, equivalently
`Object.values(...).filter(Boolean).length` in PlaywrightProxyServer.ts). -/
def sessionCount (a : ActiveSessions) : Nat :=
  (if a.chromium.isSome then 1 else 0) + (if a.firefox.isSome then 1 else 0) +
    (if a.webkit.isSome then 1 else 0)

/-- Shallow embedding of `getBrowserServer` (src/server.ts lines 50-87, and
identically src/unnamed/part_000 lines 19-56): if a session for the type
exists, refresh its `lastUsed` to `now` and return its stored server address;
otherwise run the `launch` capability, and on success register a session with
the fresh id, the launched address and `now`. A thrown launch error is the
`Except.error` case and leaves the table untouched (the store only runs after
a successful `await launchServer`). -/
def getBrowserServer (launch : BrowserType → Except Unit String)
    (freshId : String) (now : Nat)
    (a : ActiveSessions) (browserType : BrowserType) :
    Except Unit (String × ActiveSessions) :=
  match a.get browserType with
  | some sess =>
      Except.ok (sess.wsEndpoint, a.set browserType (some { sess with lastUsed := now }))
  | none =>
      match launch browserType with
      | Except.error e => Except.error e
      | Except.ok addr =>
          Except.ok (addr,
            a.set browserType (some { id := freshId, wsEndpoint := addr, lastUsed := now }))

/-- Observable side effects of one `closeSession` call. `closeCalled` records
whether `browserServer.close()` was invoked, `errorLogged` whether the catch
branch logged a thrown close error, and `ret` is the value the TS function
returns to its caller: the `Promise<void>` resolution value, carrying no
information. -/
structure CloseEffects where
  closeCalled : Bool
  errorLogged : Bool
  ret : Unit
deriving DecidableEq

/-- Shallow embedding of `closeSession` (src/server.ts lines 188-200, and
identically src/unnamed/part_000 lines 59-71): if a session is present, call
`browserServer.close()` inside try/catch (a thrown error is only logged), then
delete the table entry unconditionally; if absent, do nothing. -/
def closeSession (closeOutcome : BrowserType → Except Unit Unit)
    (a : ActiveSessions) (browserType : BrowserType) : CloseEffects × ActiveSessions :=
  match a.get browserType with
  | some _ =>
      match closeOutcome browserType with
      | Except.ok _ =>
          ({ closeCalled := true, errorLogged := false, ret := () }, a.set browserType none)
      | Except.error _ =>
          ({ closeCalled := true, errorLogged := true, ret := () }, a.set browserType none)
  | none => ({ closeCalled := false, errorLogged := false, ret := () }, a)

/-- One iteration of the auto-close sweep loop body for a single browser type
(src/server.ts lines 175-184): if the slot holds a session whose idle time
`now - lastUsed` strictly exceeds the timeout, call `closeSession` for it. -/
def autoCloseStep (autoCloseTimeout now : Nat) (closeOutcome : BrowserType → Except Unit Unit)
    (a : ActiveSessions) (browserType : BrowserType) : ActiveSessions :=
  match a.get browserType with
  | some sess =>
      if now - sess.lastUsed > autoCloseTimeout then
        (closeSession closeOutcome a browserType).2
      else a
  | none => a

/-- One tick of the `setInterval` auto-close sweep (src/server.ts lines
172-185, PlaywrightProxyServer.ts `setupAutoClose`): iterate the loop body
over the table entries in their record order chromium, firefox, webkit.
The interval length in the source is the constant 10000 ms. -/
def autoCloseSweep (autoCloseTimeout now : Nat) (closeOutcome : BrowserType → Except Unit Unit)
    (a : ActiveSessions) : ActiveSessions :=
  autoCloseStep autoCloseTimeout now closeOutcome
    (autoCloseStep autoCloseTimeout now closeOutcome
      (autoCloseStep autoCloseTimeout now closeOutcome a BrowserType.chromium)
      BrowserType.firefox)
    BrowserType.webkit

/-- The upgrade-path pattern match on the regex
`/^\/(chromium|firefox|webkit)\/playwright$/`: the anchored regex accepts
exactly the three literal paths, yielding the captured browser type. -/
def parseChannelPath (path : String) : Option BrowserType :=
  if path = "/chromium/playwright" then some BrowserType.chromium
  else if path = "/firefox/playwright" then some BrowserType.firefox
  else if path = "/webkit/playwright" then some BrowserType.webkit
  else none

/-- Outcome of one upgrade request: the raw HTTP status written to the socket
(none when the request was instead handed to a WebSocket upgrade), whether
`socket.destroy()` was called, whether the upgrade was completed, and the
session table afterwards. -/
structure UpgradeOutcome where
  statusWritten : Option Nat
  socketDestroyed : Bool
  upgraded : Bool
  sessions : ActiveSessions
deriving DecidableEq

/-- Shallow embedding of the upgrade handler (src/server.ts lines 109-169,
structurally identical to `handleWebSocketUpgrade` in
PlaywrightProxyServer.ts): unmatched path writes 404 and destroys the socket;
a token different from the configured secret (including a missing token,
`none`) writes 401 and destroys the socket; otherwise `getBrowserServer` is
awaited, a thrown launch error is caught and answered with 500 plus destroy,
and on success the connection is upgraded against the backend. -/
def handleWebSocketUpgrade (authToken : String)
    (launch : BrowserType → Except Unit String) (freshId : String) (now : Nat)
    (path : String) (token : Option String) (a : ActiveSessions) : UpgradeOutcome :=
  match parseChannelPath path with
  | none =>
      { statusWritten := some 404, socketDestroyed := true, upgraded := false, sessions := a }
  | some browserType =>
      if token ≠ some authToken then
        { statusWritten := some 401, socketDestroyed := true, upgraded := false, sessions := a }
      else
        match getBrowserServer launch freshId now a browserType with
        | Except.error _ =>
            { statusWritten := some 500, socketDestroyed := true, upgraded := false, sessions := a }
        | Except.ok (_, a2) =>
            { statusWritten := none, socketDestroyed := false, upgraded := true, sessions := a2 }

/-- Body of the health response: the TS object keys `status` and
`activeSessions`. -/
structure HealthBody where
  status : String
  activeSessions : Nat
deriving DecidableEq

/-- Body of a plain HTTP response: the health JSON or the 404 text. -/
inductive HttpBody where
  | health (body : HealthBody)
  | notFound
deriving DecidableEq

/-- Shallow embedding of the plain HTTP handler (src/server.ts lines 90-106,
`handleHttpRequest` in PlaywrightProxyServer.ts lines 63-79): the source
parses only the pathname and never reads the request method, which is kept
here as an explicit ignored argument. `/health` gets 200 with the status
payload; every other path gets 404. -/
def handleHttpRequest (method : String) (path : String) (a : ActiveSessions) : Nat × HttpBody :=
  if path = "/health" then
    (200, HttpBody.health { status := "ok", activeSessions := sessionCount a })
  else (404, HttpBody.notFound)

/-- Side of an established relay pairing: the client WebSocket `ws` or the
backend WebSocket `browserWs`. -/
inductive RelaySide where
  | client
  | backend
deriving DecidableEq, Fintype

/-- Event delivered to the relay handlers of one established pairing:
a data frame, a transport close, or a transport error on one side. -/
inductive RelayEvent where
  | message (side : RelaySide) (payload : String)
  | closeEv (side : RelaySide)
  | errorEv (side : RelaySide)
deriving DecidableEq

/-- Openness of the two transports of one established relay pairing. -/
structure RelayState where
  clientOpen : Bool
  backendOpen : Bool
deriving DecidableEq

/-- One event-handler dispatch of an established pairing
(PlaywrightProxyServer.ts lines 124-161): a `close` event on either side
means that transport is closed and the handler calls `close()` on the other
side, so both ends are closed; `message` handlers forward the frame without
changing openness; `error` handlers only log. In the `ws` transport an
`error` event on a socket is always followed by its `close` event, delivered
as a separate `closeEv`. -/
def relayStep (st : RelayState) : RelayEvent → RelayState
  | RelayEvent.message _ _ => st
  | RelayEvent.closeEv _ => { clientOpen := false, backendOpen := false }
  | RelayEvent.errorEv _ => st

/-- Run the relay handlers of one pairing over a finite event trace. -/
def relayRun (st : RelayState) (events : List RelayEvent) : RelayState :=
  events.foldl relayStep st

/-- Progress of one in-flight `getBrowserServer` call: `ready` before its
synchronous existence check has run, `launching` while suspended at the
`await launchServer` point, `done` with the address it returned. -/
inductive AcqPhase where
  | ready
  | launching
  | done (addr : String)
deriving DecidableEq

/-- One concurrent `getBrowserServer` call: its current phase, the fresh id
its registration would use, the address its own launch resolves to, and its
`Date.now()` value. -/
structure AcqTask where
  phase : AcqPhase
  freshId : String
  addr : String
  now : Nat
deriving DecidableEq

/-- Global state of several concurrent `getBrowserServer` calls against the
shared session table: the table, the number of `launchServer` invocations so
far, and the task list. -/
structure ConcState where
  sessions : ActiveSessions
  launchCount : Nat
  tasks : List AcqTask
deriving DecidableEq

/-- Advance task `i` of a set of concurrent `getBrowserServer browserType`
calls by one atomic segment, following the await structure of the source
(src/server.ts lines 50-87). Segment 1 (`ready`): the synchronous prefix up
to the suspension point — the existence check, which on a hit refreshes
`lastUsed` and finishes with the stored address, and on a miss starts
`launchServer` (counted by `launchCount`) and suspends. Segment 2
(`launching`): the continuation after the awaited launch resolves — store the
new session (overwriting the slot) and finish with the launched address.
Everything between two awaits runs atomically on the Node event loop. -/
def concStep (browserType : BrowserType) (s : ConcState) (i : Nat) : ConcState :=
  match s.tasks.get? i with
  | none => s
  | some task =>
    match task.phase with
    | AcqPhase.ready =>
        match s.sessions.get browserType with
        | some sess =>
            { s with
              sessions := s.sessions.set browserType (some { sess with lastUsed := task.now }),
              tasks := s.tasks.set i { task with phase := AcqPhase.done sess.wsEndpoint } }
        | none =>
            { s with
              launchCount := s.launchCount + 1,
              tasks := s.tasks.set i { task with phase := AcqPhase.launching } }
    | AcqPhase.launching =>
        { s with
          sessions := s.sessions.set browserType
            (some { id := task.freshId, wsEndpoint := task.addr, lastUsed := task.now }),
          tasks := s.tasks.set i { task with phase := AcqPhase.done task.addr } }
    | AcqPhase.done _ => s

/-- Run a schedule (a list of task indices, each occurrence advancing that
task by one atomic segment) over a concurrent-acquire state. -/
def concRun (browserType : BrowserType) (s : ConcState) (sched : List Nat) : ConcState :=
  sched.foldl (concStep browserType) s

/-- An empty session table. -/
def sessionsEmpty : ActiveSessions :=
  { chromium := none, firefox := none, webkit := none }

/-- A table holding one chromium session. -/
def sessionsWithChromium : ActiveSessions :=
  { chromium := some { id := "id0", wsEndpoint := "ws0", lastUsed := 5 },
    firefox := none, webkit := none }

/-- Two concurrent `getBrowserServer` calls for the same type against an
empty table, neither yet started: task 0 would register id0 at address ws0,
task 1 would register id1 at address ws1. -/
def twoAcquires : ConcState :=
  { sessions := sessionsEmpty,
    launchCount := 0,
    tasks := [{ phase := AcqPhase.ready, freshId := "id0", addr := "ws0", now := 10 },
              { phase := AcqPhase.ready, freshId := "id1", addr := "ws1", now := 11 }] }

theorem ActiveSessions.get_set_same (a : ActiveSessions) (t : BrowserType)
    (v : Option BrowserSession) : (a.set t v).get t = v := by
  cases t <;> rfl

theorem ActiveSessions.get_set_ne (a : ActiveSessions) (t t2 : BrowserType)
    (v : Option BrowserSession) (h : t2 ≠ t) : (a.set t v).get t2 = a.get t2 := by
  cases t <;> cases t2 <;> first | rfl | exact absurd rfl h

theorem relayStep_closed (ev : RelayEvent) :
    relayStep { clientOpen := false, backendOpen := false } ev
      = { clientOpen := false, backendOpen := false } := by
  cases ev <;> rfl

theorem relayRun_closed :
    ∀ events : List RelayEvent,
      relayRun { clientOpen := false, backendOpen := false } events
        = { clientOpen := false, backendOpen := false }
  | [] => rfl
  | e :: rest => by
      have hstep : relayRun { clientOpen := false, backendOpen := false } (e :: rest)
          = relayRun (relayStep { clientOpen := false, backendOpen := false } e) rest := rfl
      rw [hstep, relayStep_closed]
      exact relayRun_closed rest

theorem relayRun_of_close_mem (side : RelaySide) :
    ∀ (events : List RelayEvent) (st : RelayState),
      RelayEvent.closeEv side ∈ events →
        relayRun st events = { clientOpen := false, backendOpen := false }
  | [], _, h => by simp at h
  | e :: rest, st, h => by
      have hstep : relayRun st (e :: rest) = relayRun (relayStep st e) rest := rfl
      rw [hstep]
      rcases List.mem_cons.mp h with he | hrest
      · rw [← he]
        exact relayRun_closed rest
      · exact relayRun_of_close_mem side rest (relayStep st e) hrest

theorem autoCloseStep_get_same (autoCloseTimeout now : Nat)
    (closeOutcome : BrowserType → Except Unit Unit) (a : ActiveSessions) (t : BrowserType) :
    (autoCloseStep autoCloseTimeout now closeOutcome a t).get t =
      match a.get t with
      | some sess => if now - sess.lastUsed > autoCloseTimeout then none else some sess
      | none => none := by
  unfold autoCloseStep
  cases ha : a.get t with
  | none => exact ha
  | some sess =>
      by_cases hc : now - sess.lastUsed > autoCloseTimeout
      · simp only [hc, if_true]
        unfold closeSession
        rw [ha]
        cases closeOutcome t <;> simp [ActiveSessions.get_set_same]
      · simp only [hc, if_false]
        exact ha

theorem autoCloseStep_get_ne (autoCloseTimeout now : Nat)
    (closeOutcome : BrowserType → Except Unit Unit) (a : ActiveSessions) (t t2 : BrowserType)
    (h : t2 ≠ t) :
    (autoCloseStep autoCloseTimeout now closeOutcome a t).get t2 = a.get t2 := by
  unfold autoCloseStep
  cases ha : a.get t with
  | none => rfl
  | some sess =>
      by_cases hc : now - sess.lastUsed > autoCloseTimeout
      · simp only [hc, if_true]
        unfold closeSession
        rw [ha]
        cases closeOutcome t <;> simp [ActiveSessions.get_set_ne _ _ _ _ h]
      · simp [hc]

theorem autoCloseSweep_get (autoCloseTimeout now : Nat)
    (closeOutcome : BrowserType → Except Unit Unit) (a : ActiveSessions) (t : BrowserType) :
    (autoCloseSweep autoCloseTimeout now closeOutcome a).get t =
      match a.get t with
      | some sess => if now - sess.lastUsed > autoCloseTimeout then none else some sess
      | none => none := by
  cases t with
  | chromium =>
      unfold autoCloseSweep
      rw [autoCloseStep_get_ne _ _ _ _ _ _ (by decide),
        autoCloseStep_get_ne _ _ _ _ _ _ (by decide),
        autoCloseStep_get_same]
  | firefox =>
      unfold autoCloseSweep
      rw [autoCloseStep_get_ne _ _ _ _ _ _ (by decide),
        autoCloseStep_get_same,
        autoCloseStep_get_ne _ _ _ _ _ _ (by decide)]
  | webkit =>
      unfold autoCloseSweep
      rw [autoCloseStep_get_same,
        autoCloseStep_get_ne _ _ _ _ _ _ (by decide),
        autoCloseStep_get_ne _ _ _ _ _ _ (by decide)]

/-- C1: the claim fails on the code. Two concurrent `getBrowserServer`
calls for the same type against an empty table, interleaved so that both run
the existence check before either `await launchServer` resolves (schedule
task 0 check, task 1 check, task 0 store, task 1 store), launch two backends:
the launch counter ends at 2, contradicting the claim's bound of at most one
launch. The table itself ends with the single session stored last (task 1's),
so the first launched backend is leaked, unreachable from the session table. -/
theorem getBrowserServer_concurrent_double_launch :
    (concRun BrowserType.chromium twoAcquires [0, 1, 0, 1]).launchCount = 2
    ∧ ¬ (concRun BrowserType.chromium twoAcquires [0, 1, 0, 1]).launchCount ≤ 1
    ∧ (concRun BrowserType.chromium twoAcquires [0, 1, 0, 1]).sessions.get
        BrowserType.chromium
        = some { id := "id1", wsEndpoint := "ws1", lastUsed := 11 } := by
  decide

/-- C2: for every established relay pairing, once either side closes or
errors, the pairing ends with both sides closed — no half-open relay state.
The hypothesis `hws` is the `ws` transport contract that an `error` event on
a socket is always followed by that socket's `close` event within the
trace; the close handlers of the pairing then propagate closure to the other
side. -/
theorem relay_symmetric_close (events : List RelayEvent)
    (hws : ∀ side : RelaySide,
      RelayEvent.errorEv side ∈ events → RelayEvent.closeEv side ∈ events)
    (hsome : (∃ side : RelaySide, RelayEvent.closeEv side ∈ events)
      ∨ (∃ side : RelaySide, RelayEvent.errorEv side ∈ events)) :
    relayRun { clientOpen := true, backendOpen := true } events
      = { clientOpen := false, backendOpen := false } := by
  rcases hsome with ⟨side, hc⟩ | ⟨side, he⟩
  · exact relayRun_of_close_mem side events _ hc
  · exact relayRun_of_close_mem side events _ (hws side he)

/-- Witness for C2 at a concrete trace: the client transport errors and then
closes; the pairing ends fully closed. -/
theorem relay_symmetric_close_witness :
    relayRun { clientOpen := true, backendOpen := true }
        [RelayEvent.errorEv RelaySide.client, RelayEvent.closeEv RelaySide.client]
      = { clientOpen := false, backendOpen := false } :=
  relay_symmetric_close
    [RelayEvent.errorEv RelaySide.client, RelayEvent.closeEv RelaySide.client]
    (by decide) (Or.inl ⟨RelaySide.client, by decide⟩)

/-- C3: on a recognized channel path with the valid token, when no session
for the type exists and the launch capability throws, the upgrade handler
answers HTTP 500 and destroys the socket, and the session table is returned
exactly as it was: no partial session is registered. Consequently a later
acquire for the same type on that table performs a fresh launch attempt, and
succeeds when its launch capability succeeds. -/
theorem upgrade_launch_failure_no_partial_session (authToken : String)
    (launch : BrowserType → Except Unit String) (freshId : String) (now : Nat)
    (path : String) (browserType : BrowserType) (a : ActiveSessions)
    (hpath : parseChannelPath path = some browserType)
    (hnone : a.get browserType = none)
    (hfail : launch browserType = Except.error ()) :
    handleWebSocketUpgrade authToken launch freshId now path (some authToken) a
      = { statusWritten := some 500, socketDestroyed := true, upgraded := false, sessions := a }
    ∧ ∀ (launch2 : BrowserType → Except Unit String) (freshId2 : String) (now2 : Nat)
        (addr : String), launch2 browserType = Except.ok addr →
        getBrowserServer launch2 freshId2 now2 a browserType
          = Except.ok (addr, a.set browserType
              (some { id := freshId2, wsEndpoint := addr, lastUsed := now2 })) := by
  constructor
  · simp [handleWebSocketUpgrade, getBrowserServer, hpath, hnone, hfail]
  · intro launch2 freshId2 now2 addr h2
    simp [getBrowserServer, hnone, h2]

/-- Witness for C3 at a concrete input: empty table, always-failing launch,
valid token on the chromium path. -/
theorem upgrade_launch_failure_witness :
    handleWebSocketUpgrade "secret" (fun _ => Except.error ()) "idX" 42
        "/chromium/playwright" (some "secret") sessionsEmpty
      = { statusWritten := some 500, socketDestroyed := true, upgraded := false,
          sessions := sessionsEmpty } :=
  (upgrade_launch_failure_no_partial_session "secret" (fun _ => Except.error ()) "idX" 42
    "/chromium/playwright" BrowserType.chromium sessionsEmpty (by decide) rfl rfl).1

/-- C4: on a recognized channel path, a token different from the configured
secret — including a missing token — is answered with HTTP 401 and the socket
is destroyed before any upgrade; the session table is unchanged, so a health
check afterwards reports the same session count as before; and the outcome
does not depend on the launch capability at all, so no backend is launched. -/
theorem upgrade_bad_token_rejected (authToken : String)
    (launch : BrowserType → Except Unit String) (freshId : String) (now : Nat)
    (path : String) (browserType : BrowserType) (token : Option String) (a : ActiveSessions)
    (hpath : parseChannelPath path = some browserType)
    (htok : token ≠ some authToken) :
    handleWebSocketUpgrade authToken launch freshId now path token a
      = { statusWritten := some 401, socketDestroyed := true, upgraded := false, sessions := a }
    ∧ (∀ method : String,
        handleHttpRequest method "/health"
            (handleWebSocketUpgrade authToken launch freshId now path token a).sessions
          = (200, HttpBody.health { status := "ok", activeSessions := sessionCount a }))
    ∧ ∀ (launch2 : BrowserType → Except Unit String) (freshId2 : String) (now2 : Nat),
        handleWebSocketUpgrade authToken launch2 freshId2 now2 path token a
          = handleWebSocketUpgrade authToken launch freshId now path token a := by
  have hmain : ∀ (launch3 : BrowserType → Except Unit String) (freshId3 : String) (now3 : Nat),
      handleWebSocketUpgrade authToken launch3 freshId3 now3 path token a
        = { statusWritten := some 401, socketDestroyed := true, upgraded := false,
            sessions := a } := by
    intro launch3 freshId3 now3
    simp [handleWebSocketUpgrade, hpath, htok]
  refine ⟨hmain launch freshId now, ?_, ?_⟩
  · intro method
    rw [hmain launch freshId now]
    rfl
  · intro launch2 freshId2 now2
    rw [hmain launch2 freshId2 now2, hmain launch freshId now]

/-- Witness for C4 at a concrete input: missing token on the firefox path,
table holding one chromium session. -/
theorem upgrade_bad_token_witness :
    handleWebSocketUpgrade "secret" (fun _ => Except.ok "wsF") "idY" 7
        "/firefox/playwright" none sessionsWithChromium
      = { statusWritten := some 401, socketDestroyed := true, upgraded := false,
          sessions := sessionsWithChromium } :=
  (upgrade_bad_token_rejected "secret" (fun _ => Except.ok "wsF") "idY" 7
    "/firefox/playwright" BrowserType.firefox none sessionsWithChromium (by decide)
    (by decide)).1

/-- C5 counterexample: the claim says release returns a boolean indicating
whether a session was actually present, but the source `closeSession` returns
`Promise<void>`: the value handed back to the caller (the `ret` field) is the
same whether a session was present or not, on the concrete tables
`sessionsWithChromium` (chromium session present) and `sessionsEmpty`
(absent), so the return value indicates nothing. -/
theorem closeSession_returns_no_presence_bool :
    (sessionsWithChromium.get BrowserType.chromium).isSome = true
    ∧ (sessionsEmpty.get BrowserType.chromium).isSome = false
    ∧ (closeSession (fun _ => Except.ok ()) sessionsWithChromium BrowserType.chromium).1.ret
        = (closeSession (fun _ => Except.ok ()) sessionsEmpty BrowserType.chromium).1.ret := by
  decide

/-- C5 as amended: release terminates the backend if a session is present
(`browserServer.close()` is called) and removes the session from the table,
leaving other types untouched, but returns no value; when termination throws,
the error is logged, not propagated (the function still returns normally, as
its total result type shows), and the session is still removed. When no
session is present, nothing happens. -/
theorem closeSession_removes_and_swallows (closeOutcome : BrowserType → Except Unit Unit)
    (a : ActiveSessions) (browserType : BrowserType) :
    (∀ sess, a.get browserType = some sess →
      (closeSession closeOutcome a browserType).1.closeCalled = true
      ∧ (closeSession closeOutcome a browserType).2.get browserType = none
      ∧ (∀ t2, t2 ≠ browserType →
          (closeSession closeOutcome a browserType).2.get t2 = a.get t2)
      ∧ (closeOutcome browserType = Except.error () →
          (closeSession closeOutcome a browserType).1.errorLogged = true))
    ∧ (a.get browserType = none →
        closeSession closeOutcome a browserType
          = ({ closeCalled := false, errorLogged := false, ret := () }, a)) := by
  constructor
  · intro sess hsess
    refine ⟨?_, ?_, ?_, ?_⟩
    · unfold closeSession
      rw [hsess]
      cases closeOutcome browserType <;> rfl
    · unfold closeSession
      rw [hsess]
      cases closeOutcome browserType <;> simp [ActiveSessions.get_set_same]
    · intro t2 h2
      unfold closeSession
      rw [hsess]
      cases closeOutcome browserType <;> simp [ActiveSessions.get_set_ne _ _ _ _ h2]
    · intro herr
      unfold closeSession
      rw [hsess, herr]
  · intro hnone
    unfold closeSession
    rw [hnone]

/-- Witness for C5 at a concrete input: chromium session present and a close
that throws; the session is removed anyway and the error is logged. -/
theorem closeSession_removes_and_swallows_witness :
    (closeSession (fun _ => Except.error ()) sessionsWithChromium BrowserType.chromium).2.get
        BrowserType.chromium = none
    ∧ (closeSession (fun _ => Except.error ()) sessionsWithChromium
        BrowserType.chromium).1.errorLogged = true :=
  ⟨((closeSession_removes_and_swallows (fun _ => Except.error ()) sessionsWithChromium
      BrowserType.chromium).1 { id := "id0", wsEndpoint := "ws0", lastUsed := 5 } rfl).2.1,
   ((closeSession_removes_and_swallows (fun _ => Except.error ()) sessionsWithChromium
      BrowserType.chromium).1 { id := "id0", wsEndpoint := "ws0", lastUsed := 5 } rfl).2.2.2
     rfl⟩

/-- C6: on a sweep tick at time `now`, every session whose idle time
`now - lastUsed` exceeds the timeout is released, a session whose idle time
is within the timeout is left exactly as it is, and a session idle for longer
than `timeout + tickInterval` is gone after the sweep at `now` even when the
previous tick at `now - tickInterval` is taken into account (it is in fact
already removed by that previous tick). -/
theorem autoCloseSweep_reclaims_idle (autoCloseTimeout now tickInterval : Nat)
    (closeOutcome : BrowserType → Except Unit Unit) (a : ActiveSessions)
    (browserType : BrowserType) (sess : BrowserSession)
    (hsess : a.get browserType = some sess) :
    (now - sess.lastUsed > autoCloseTimeout →
      (autoCloseSweep autoCloseTimeout now closeOutcome a).get browserType = none)
    ∧ (now - sess.lastUsed ≤ autoCloseTimeout →
      (autoCloseSweep autoCloseTimeout now closeOutcome a).get browserType = some sess)
    ∧ (now - sess.lastUsed > autoCloseTimeout + tickInterval → tickInterval ≤ now →
      (autoCloseSweep autoCloseTimeout now closeOutcome
        (autoCloseSweep autoCloseTimeout (now - tickInterval) closeOutcome a)).get browserType
        = none) := by
  refine ⟨?_, ?_, ?_⟩
  · intro hidle
    rw [autoCloseSweep_get, hsess]
    simp [hidle]
  · intro hrecent
    rw [autoCloseSweep_get, hsess]
    simp
    omega
  · intro hlong htick
    have hprev : (now - tickInterval) - sess.lastUsed > autoCloseTimeout := by omega
    have h1 : (autoCloseSweep autoCloseTimeout (now - tickInterval) closeOutcome a).get
        browserType = none := by
      rw [autoCloseSweep_get, hsess]
      simp [hprev]
    rw [autoCloseSweep_get, h1]

/-- Witness for C6 at a concrete input: the code's default timeout 60000 ms
and tick interval 10000 ms, a chromium session last used at 5 and a sweep at
time 100000; the session is reclaimed. -/
theorem autoCloseSweep_reclaims_idle_witness :
    (autoCloseSweep 60000 100000 (fun _ => Except.ok ()) sessionsWithChromium).get
      BrowserType.chromium = none :=
  (autoCloseSweep_reclaims_idle 60000 100000 10000 (fun _ => Except.ok ())
    sessionsWithChromium BrowserType.chromium
    { id := "id0", wsEndpoint := "ws0", lastUsed := 5 } rfl).1 (by decide)

/-- C7: acquire returns the address of a live backend. If a session for the
type exists, it returns that session's stored address, refreshing only its
`lastUsed` to `now`, and a second successful acquire on the resulting table
returns the same address. If none exists and the launch succeeds, a session
with the fresh id, the launched address and the current timestamp is
registered before the address is returned, and a second successful acquire
on the resulting table again returns the same address. -/
theorem getBrowserServer_acquire_contract (launch : BrowserType → Except Unit String)
    (freshId : String) (now : Nat) (a : ActiveSessions) (browserType : BrowserType) :
    (∀ sess, a.get browserType = some sess →
      getBrowserServer launch freshId now a browserType
        = Except.ok (sess.wsEndpoint,
            a.set browserType (some { sess with lastUsed := now }))
      ∧ ∀ (launch2 : BrowserType → Except Unit String) (freshId2 : String) (now2 : Nat),
          ∃ a2, getBrowserServer launch2 freshId2 now2
              (a.set browserType (some { sess with lastUsed := now })) browserType
            = Except.ok (sess.wsEndpoint, a2))
    ∧ (∀ addr, a.get browserType = none → launch browserType = Except.ok addr →
      getBrowserServer launch freshId now a browserType
        = Except.ok (addr,
            a.set browserType (some { id := freshId, wsEndpoint := addr, lastUsed := now }))
      ∧ ∀ (launch2 : BrowserType → Except Unit String) (freshId2 : String) (now2 : Nat),
          ∃ a2, getBrowserServer launch2 freshId2 now2
              (a.set browserType
                (some { id := freshId, wsEndpoint := addr, lastUsed := now })) browserType
            = Except.ok (addr, a2)) := by
  constructor
  · intro sess hsess
    constructor
    · simp [getBrowserServer, hsess]
    · intro launch2 freshId2 now2
      exact ⟨(a.set browserType (some { sess with lastUsed := now })).set browserType
          (some { sess with lastUsed := now2 }),
        by simp [getBrowserServer, ActiveSessions.get_set_same]⟩
  · intro addr hnone hok
    constructor
    · simp [getBrowserServer, hnone, hok]
    · intro launch2 freshId2 now2
      exact ⟨(a.set browserType
            (some { id := freshId, wsEndpoint := addr, lastUsed := now })).set browserType
          (some { id := freshId, wsEndpoint := addr, lastUsed := now2 }),
        by simp [getBrowserServer, ActiveSessions.get_set_same]⟩

/-- Witness for C7 at a concrete input: a table holding a chromium session at
address ws0; acquire returns ws0 and refreshes the timestamp. -/
theorem getBrowserServer_acquire_contract_witness :
    getBrowserServer (fun _ => Except.error ()) "idZ" 50 sessionsWithChromium
        BrowserType.chromium
      = Except.ok ("ws0",
          sessionsWithChromium.set BrowserType.chromium
            (some { id := "id0", wsEndpoint := "ws0", lastUsed := 50 })) :=
  ((getBrowserServer_acquire_contract (fun _ => Except.error ()) "idZ" 50
    sessionsWithChromium BrowserType.chromium).1
    { id := "id0", wsEndpoint := "ws0", lastUsed := 5 } rfl).1

/-- C8 counterexample: the claim requires every plain HTTP request other
than a GET to the /health path to be answered 404, but the source handler
never reads the request method, so a POST to /health is also answered 200
with the health payload, not 404. -/
theorem handleHttpRequest_post_health_200 :
    "POST" ≠ "GET"
    ∧ (handleHttpRequest "POST" "/health" sessionsEmpty).1 = 200
    ∧ (handleHttpRequest "POST" "/health" sessionsEmpty).1 ≠ 404 := by
  decide

/-- C8 as amended: any plain HTTP request whose path is /health, regardless
of method and with no token required (the handler takes none), returns
status 200 with a JSON body holding a status field and a count equal to the
number of channel types that currently have a live session; a request to any
other path returns status 404. -/
theorem handleHttpRequest_routes (method path : String) (a : ActiveSessions) :
    (path = "/health" →
      handleHttpRequest method path a
        = (200, HttpBody.health { status := "ok", activeSessions := sessionCount a }))
    ∧ (path ≠ "/health" → handleHttpRequest method path a = (404, HttpBody.notFound))
    ∧ sessionCount a
        = (List.filter (fun t => (a.get t).isSome)
            [BrowserType.chromium, BrowserType.firefox, BrowserType.webkit]).length := by
  refine ⟨?_, ?_, ?_⟩
  · intro h
    simp [handleHttpRequest, h]
  · intro h
    simp [handleHttpRequest, h]
  · rcases a with ⟨c, f, w⟩
    cases c <;> cases f <;> cases w <;> rfl

/-- Witness for C8 (amended) at a concrete input: a GET to /health over a
table with one live session reports the count 1, and a GET to another path
is answered 404. -/
theorem handleHttpRequest_routes_witness :
    handleHttpRequest "GET" "/health" sessionsWithChromium
      = (200,
          HttpBody.health
            { status := "ok", activeSessions := sessionCount sessionsWithChromium })
    ∧ handleHttpRequest "GET" "/other" sessionsWithChromium = (404, HttpBody.notFound) :=
  ⟨(handleHttpRequest_routes "GET" "/health" sessionsWithChromium).1 rfl,
   (handleHttpRequest_routes "GET" "/other" sessionsWithChromium).2.1 (by decide)⟩

/-- C9: an upgrade request whose path matches no channel-type pattern is
answered HTTP 404 with the socket destroyed and the session table unchanged,
and the outcome is identical for every token and every launch capability —
the rejection happens before any token check or backend acquisition. -/
theorem upgrade_unknown_path_404 (authToken : String)
    (launch : BrowserType → Except Unit String) (freshId : String) (now : Nat)
    (path : String) (token : Option String) (a : ActiveSessions)
    (hpath : parseChannelPath path = none) :
    handleWebSocketUpgrade authToken launch freshId now path token a
      = { statusWritten := some 404, socketDestroyed := true, upgraded := false, sessions := a }
    ∧ ∀ (launch2 : BrowserType → Except Unit String) (token2 : Option String)
        (freshId2 : String) (now2 : Nat),
        handleWebSocketUpgrade authToken launch2 freshId2 now2 path token2 a
          = handleWebSocketUpgrade authToken launch freshId now path token a := by
  have hmain : ∀ (launch3 : BrowserType → Except Unit String) (token3 : Option String)
      (freshId3 : String) (now3 : Nat),
      handleWebSocketUpgrade authToken launch3 freshId3 now3 path token3 a
        = { statusWritten := some 404, socketDestroyed := true, upgraded := false,
            sessions := a } := by
    intro launch3 token3 freshId3 now3
    simp [handleWebSocketUpgrade, hpath]
  refine ⟨hmain launch token freshId now, ?_⟩
  intro launch2 token2 freshId2 now2
  rw [hmain launch2 token2 freshId2 now2, hmain launch token freshId now]

/-- Witness for C9 at a concrete input: an upgrade to an unsupported browser
path with a valid-looking token is answered 404 with the table unchanged. -/
theorem upgrade_unknown_path_404_witness :
    handleWebSocketUpgrade "secret" (fun _ => Except.ok "wsE") "idW" 3
        "/opera/playwright" (some "secret") sessionsWithChromium
      = { statusWritten := some 404, socketDestroyed := true, upgraded := false,
          sessions := sessionsWithChromium } :=
  (upgrade_unknown_path_404 "secret" (fun _ => Except.ok "wsE") "idW" 3
    "/opera/playwright" (some "secret") sessionsWithChromium (by decide)).1

/-- C10: when acquire is called while a session for the type exists, the only
field it changes is that session's `lastUsed`: the resulting table holds, for
that type, a session with the same id and the same server address and
`lastUsed := now`; every other channel type's slot is untouched; and the
result does not depend on the launch capability, which is never consulted. -/
theorem getBrowserServer_touch_frame (launch : BrowserType → Except Unit String)
    (freshId : String) (now : Nat) (a : ActiveSessions) (browserType : BrowserType)
    (sess : BrowserSession) (hsess : a.get browserType = some sess) :
    getBrowserServer launch freshId now a browserType
      = Except.ok (sess.wsEndpoint,
          a.set browserType
            (some { id := sess.id, wsEndpoint := sess.wsEndpoint, lastUsed := now }))
    ∧ (a.set browserType
        (some { id := sess.id, wsEndpoint := sess.wsEndpoint, lastUsed := now })).get
        browserType
      = some { id := sess.id, wsEndpoint := sess.wsEndpoint, lastUsed := now }
    ∧ (∀ t2, t2 ≠ browserType →
        (a.set browserType
          (some { id := sess.id, wsEndpoint := sess.wsEndpoint, lastUsed := now })).get t2
          = a.get t2)
    ∧ ∀ launch2 : BrowserType → Except Unit String,
        getBrowserServer launch2 freshId now a browserType
          = getBrowserServer launch freshId now a browserType := by
  refine ⟨?_, ActiveSessions.get_set_same _ _ _, ?_, ?_⟩
  · simp [getBrowserServer, hsess]
  · intro t2 h2
    exact ActiveSessions.get_set_ne _ _ _ _ h2
  · intro launch2
    simp [getBrowserServer, hsess]

/-- Witness for C10 at a concrete input: acquiring chromium over a table with
a live chromium session only refreshes its timestamp, and the firefox and
webkit slots are untouched. -/
theorem getBrowserServer_touch_frame_witness :
    getBrowserServer (fun _ => Except.ok "other") "idQ" 99 sessionsWithChromium
        BrowserType.chromium
      = Except.ok ("ws0",
          sessionsWithChromium.set BrowserType.chromium
            (some { id := "id0", wsEndpoint := "ws0", lastUsed := 99 }))
    ∧ (sessionsWithChromium.set BrowserType.chromium
        (some { id := "id0", wsEndpoint := "ws0", lastUsed := 99 })).get BrowserType.firefox
      = sessionsWithChromium.get BrowserType.firefox :=
  ⟨(getBrowserServer_touch_frame (fun _ => Except.ok "other") "idQ" 99 sessionsWithChromium
      BrowserType.chromium { id := "id0", wsEndpoint := "ws0", lastUsed := 5 } rfl).1,
   (getBrowserServer_touch_frame (fun _ => Except.ok "other") "idQ" 99 sessionsWithChromium
      BrowserType.chromium { id := "id0", wsEndpoint := "ws0", lastUsed := 5 } rfl).2.2.1
     BrowserType.firefox (by decide)⟩
